import Mathlib

/-
Shallow embedding of `src/refresh_text.py` (a Scribus automation script).

The core logic is `read_csv_column`: it opens a CSV file with
`encoding="utf-8-sig"` (which discards a leading byte-order mark),
parses it with Python's `csv.reader` (delimiter `,`, quote char `"`,
default dialect: doublequote on, no escape char, non-strict), and for
each row extracts one column, normalizing line endings and stripping a
remaining pair of wrapping quotes.

Strings are modelled as `List Char` (Python `str` is a sequence of
Unicode code points, as is Lean's `String.data`).  File reading is
modelled by handing the decoded character content to the function; a
failing open/decode is modelled by `Except.error`.

The Scribus host API (`scribus.*`) is modelled as an oracle structure
`ScribusHost` for the query functions and as a trace of `ScribusCall`
values for the calls the script performs.
-/

set_option maxHeartbeats 1000000

namespace RefreshText

/-- Script constant `FRAME_NAME`. -/
def FRAME_NAME : String := "TitleFrame"

/-- Script constant `FONT_NAME`. -/
def FONT_NAME : String := "Comic Sans MS Regular"

/-- Script constant `FONT_SIZE` (pt). -/
def FONT_SIZE : Nat := 20

/-- Script constant `JUSTIFY_MODE` (1 = center). -/
def JUSTIFY_MODE : Nat := 1

/-- Script constant `LINE_SPACING` (pt). -/
def LINE_SPACING : Nat := 23

/-- Script constant `LINE_MODE` (0 = fixed). -/
def LINE_MODE : Nat := 0

/-- Script constant `COLUMN_INDEX`. -/
def COLUMN_INDEX : Nat := 0

/-- Script constant `SKIP_HEADER`. -/
def SKIP_HEADER : Bool := false

/-- States of the CPython `csv.reader` parsing state machine
(`Modules/_csv.c`), restricted to the dialect the script uses:
delimiter `,`, quotechar `"`, doublequote on, no escapechar,
skipinitialspace off, non-strict.  `eatNL` is the machine's `EAT_CRNL`
state: the record was just terminated by a carriage return and an
immediately following line feed must be consumed silently. -/
inductive CSVState where
  | startRecord
  | startField
  | inField
  | inQuotedField
  | quoteInQuoted
  | eatNL
  deriving DecidableEq

/-- Character-level embedding of `csv.reader` over the whole decoded file
content (the file is opened with `newline=""`, so line splitting keeps
the terminators and the reader sees exactly this character stream).
Arguments: current state, characters of the field being built, fields of
the row being built, remaining input.  Returns the rows still to be
produced.  At end of input an unterminated field or quoted field is
emitted as a final record, as the non-strict reader does. -/
def parseCSVAux : CSVState → List Char → List (List Char) → List Char →
    List (List (List Char))
  | .startRecord, _, _, [] => []
  | .startRecord, _, _, c :: rest =>
    if c = '\n' then [] :: parseCSVAux .startRecord [] [] rest
    else if c = '\r' then [] :: parseCSVAux .eatNL [] [] rest
    else if c = '"' then parseCSVAux .inQuotedField [] [] rest
    else if c = ',' then parseCSVAux .startField [] [[]] rest
    else parseCSVAux .inField [c] [] rest
  | .startField, field, row, [] => [row ++ [field]]
  | .startField, field, row, c :: rest =>
    if c = '\n' then (row ++ [field]) :: parseCSVAux .startRecord [] [] rest
    else if c = '\r' then (row ++ [field]) :: parseCSVAux .eatNL [] [] rest
    else if c = '"' then parseCSVAux .inQuotedField field row rest
    else if c = ',' then parseCSVAux .startField [] (row ++ [field]) rest
    else parseCSVAux .inField (field ++ [c]) row rest
  | .inField, field, row, [] => [row ++ [field]]
  | .inField, field, row, c :: rest =>
    if c = '\n' then (row ++ [field]) :: parseCSVAux .startRecord [] [] rest
    else if c = '\r' then (row ++ [field]) :: parseCSVAux .eatNL [] [] rest
    else if c = ',' then parseCSVAux .startField [] (row ++ [field]) rest
    else parseCSVAux .inField (field ++ [c]) row rest
  | .inQuotedField, field, row, [] => [row ++ [field]]
  | .inQuotedField, field, row, c :: rest =>
    if c = '"' then parseCSVAux .quoteInQuoted field row rest
    else parseCSVAux .inQuotedField (field ++ [c]) row rest
  | .quoteInQuoted, field, row, [] => [row ++ [field]]
  | .quoteInQuoted, field, row, c :: rest =>
    if c = '"' then parseCSVAux .inQuotedField (field ++ [c]) row rest
    else if c = ',' then parseCSVAux .startField [] (row ++ [field]) rest
    else if c = '\n' then (row ++ [field]) :: parseCSVAux .startRecord [] [] rest
    else if c = '\r' then (row ++ [field]) :: parseCSVAux .eatNL [] [] rest
    else parseCSVAux .inField (field ++ [c]) row rest
  | .eatNL, _, _, [] => []
  | .eatNL, _, _, c :: rest =>
    if c = '\n' then parseCSVAux .startRecord [] [] rest
    else if c = '\r' then [] :: parseCSVAux .eatNL [] [] rest
    else if c = '"' then parseCSVAux .inQuotedField [] [] rest
    else if c = ',' then parseCSVAux .startField [] [[]] rest
    else parseCSVAux .inField [c] [] rest

/-- All rows `csv.reader` yields for a decoded file content. -/
def parseCSV (content : List Char) : List (List (List Char)) :=
  parseCSVAux .startRecord [] [] content

/-- Effect of decoding with `encoding="utf-8-sig"`: a leading byte-order
mark, if present, is discarded. -/
def stripBOM (content : List Char) : List Char :=
  match content with
  | [] => []
  | c :: rest => if c = '\uFEFF' then rest else c :: rest

/-- Embedding of Python `cell.replace("\r\n", "\n")`: left-to-right,
non-overlapping replacement of the two-character sequence. -/
def replaceCRLF : List Char → List Char
  | [] => []
  | [c] => [c]
  | c :: d :: rest =>
    if c = '\r' then
      if d = '\n' then '\n' :: replaceCRLF rest
      else '\r' :: replaceCRLF (d :: rest)
    else c :: replaceCRLF (d :: rest)

/-- Embedding of Python `cell.replace("\r", "\n")`: every carriage
return becomes a line feed. -/
def replaceCR (cell : List Char) : List Char :=
  cell.map (fun c => if c = '\r' then '\n' else c)

/-- The script's line-ending normalization:
`cell.replace("\r\n", "\n").replace("\r", "\n")`. -/
def normalizeNewlines (cell : List Char) : List Char :=
  replaceCR (replaceCRLF cell)

/-- The script's defensive quote stripping:
`if cell.startswith('"') and cell.endswith('"'): cell = cell[1:-1]`. -/
def stripWrappingQuotes (cell : List Char) : List Char :=
  if cell.head? = some '"' ∧ cell.getLast? = some '"' then
    (cell.drop 1).dropLast
  else cell

/-- Per-cell post-processing applied by `read_csv_column` to an
extracted field: normalize line endings, then strip wrapping quotes. -/
def processCell (cell : List Char) : List Char :=
  stripWrappingQuotes (normalizeNewlines cell)

/-- Body of the loop in `read_csv_column` for one non-skipped row:
`if len(row) > column_index: ... values.append(cell) else:
values.append("")`. -/
def processRow (row : List (List Char)) (column_index : Nat) : List Char :=
  if column_index < row.length then processCell (row.getD column_index [])
  else []

/-- The rows the reader yields for a file: BOM-aware decode, then CSV
parse. -/
def parsedRows (content : List Char) : List (List (List Char)) :=
  parseCSV (stripBOM content)

/-- The rows `read_csv_column` actually processes: with
`skip_header=True` the row at index 0 is skipped by the
`enumerate`-based `continue`. -/
def selectedRows (content : List Char) (skip_header : Bool) :
    List (List (List Char)) :=
  if skip_header then (parsedRows content).drop 1 else parsedRows content

/-- Embedding of `read_csv_column(path, column_index, skip_header)`,
applied to the decoded character content of the file at `path`. -/
def read_csv_column (content : List Char) (column_index : Nat)
    (skip_header : Bool) : List (List Char) :=
  (selectedRows content skip_header).map (fun row => processRow row column_index)

/-- `read_csv_column` at the file level: the decode step may fail
(`Except.error`), and the function contains no exception handler, so a
failure propagates unchanged and no value list is produced. -/
def read_csv_column_file (file : Except String (List Char))
    (column_index : Nat) (skip_header : Bool) :
    Except String (List (List Char)) :=
  match file with
  | .error e => .error e
  | .ok content => .ok (read_csv_column content column_index skip_header)

/-- Embedding of `"\n".join(items)`. -/
def joinNewline : List (List Char) → List Char
  | [] => []
  | [s] => s
  | s :: rest => s ++ '\n' :: joinNewline rest

/-- Calls the script makes into the Scribus API, recorded as a trace. -/
inductive ScribusCall where
  | messageBox (title text : String) (icon : Nat)
  | selectObject (frame : String)
  | deleteText (frame : String)
  | insertText (text : String) (pos : Nat) (frame : String)
  | selectText (start len : Int) (frame : String)
  | setFont (font : String) (frame : String)
  | setFontSize (size : Nat) (frame : String)
  | setTextAlignment (mode : Nat) (frame : String)
  | setLineSpacingMode (mode : Nat) (frame : String)
  | setLineSpacing (spacing : Nat) (frame : String)
  deriving DecidableEq

/-- Whether a call mutates the document (text content or styling).
Dialogs and selections do not mutate the document. -/
def ScribusCall.isMutation : ScribusCall → Bool
  | .deleteText _ => true
  | .insertText _ _ _ => true
  | .setFont _ _ => true
  | .setFontSize _ _ => true
  | .setTextAlignment _ _ => true
  | .setLineSpacingMode _ _ => true
  | .setLineSpacing _ _ => true
  | _ => false

/-- Oracle for the Scribus query functions the script consults. -/
structure ScribusHost where
  haveDoc : Bool
  objectExists : String → Bool
  getTextLength : String → Int
  textOverflows : String → Bool

/-- Embedding of `apply_formatting(frame_name)`: the trace of calls it
performs.  It returns early when the frame's text length is not
positive. -/
def apply_formatting (host : ScribusHost) (frame_name : String) :
    List ScribusCall :=
  if host.getTextLength frame_name ≤ 0 then []
  else
    [ScribusCall.selectText 0 (host.getTextLength frame_name) frame_name,
     ScribusCall.setFont FONT_NAME frame_name,
     ScribusCall.setFontSize FONT_SIZE frame_name,
     ScribusCall.setTextAlignment JUSTIFY_MODE frame_name,
     ScribusCall.setLineSpacingMode LINE_MODE frame_name]
    ++ (if LINE_MODE = 0 then
          [ScribusCall.setLineSpacing LINE_SPACING frame_name]
        else [])

/-- Result of `update_from_csv`: the trace of Scribus calls performed,
and the uncaught exception, if the CSV read raised one. -/
structure UpdateResult where
  calls : List ScribusCall
  err : Option String
  deriving DecidableEq

/-- Embedding of `update_from_csv(path, frame_name)`.  The guard checks
(`haveDoc`, `objectExists`), the CSV read (which may raise), the
distinguished no-data dialog, and the mutation/formatting sequence,
exactly in the script's order. -/
def update_from_csv (host : ScribusHost) (file : Except String (List Char))
    (frame_name : String) : UpdateResult :=
  if host.haveDoc = false then
    { calls := [ScribusCall.messageBox "Error" "No document open." 2],
      err := none }
  else if host.objectExists frame_name = false then
    { calls := [ScribusCall.messageBox "Error"
        ("Frame '" ++ frame_name ++ "' not found.") 2],
      err := none }
  else
    match read_csv_column_file file COLUMN_INDEX SKIP_HEADER with
    | .error e => { calls := [], err := some e }
    | .ok items =>
      if items.isEmpty then
        { calls := [ScribusCall.messageBox "Error" "CSV has no data rows." 2],
          err := none }
      else
        { calls :=
            [ScribusCall.selectObject frame_name,
             ScribusCall.deleteText frame_name,
             ScribusCall.insertText (String.mk (joinNewline items)) 0 frame_name]
            ++ apply_formatting host frame_name
            ++ (if host.textOverflows frame_name then
                  [ScribusCall.messageBox "Overflow Warning"
                    ("Text flows beyond linked frames starting at '"
                      ++ frame_name ++ "'.\n\n"
                      ++ "→ Add more linked frames or reduce font size/line spacing.")
                    1]
                else
                  [ScribusCall.messageBox "Success"
                    (toString items.length ++ " rows updated.") 0]),
          err := none }

/-- Modelled from the spec: the quoting a "standard CSV writer" applies
to a field containing embedded commas, quotes or newlines (the writer
itself is not part of the repository).  Every embedded quote character
is doubled. -/
def doubleQuotes : List Char → List Char
  | [] => []
  | c :: rest =>
    if c = '"' then '"' :: '"' :: doubleQuotes rest
    else c :: doubleQuotes rest

/-- Modelled from the spec: a field "wrapped in quotes by a standard CSV
writer" — the doubled-quote body surrounded by one quote character on
each side. -/
def csvWriterQuote (s : List Char) : List Char :=
  '"' :: (doubleQuotes s ++ ['"'])

/-! Helper lemmas about the embedded operations. -/

theorem cr_not_mem_replaceCR (l : List Char) : '\r' ∉ replaceCR l := by
  intro h
  rcases List.mem_map.1 h with ⟨a, _, ha⟩
  by_cases hc : a = '\r' <;> simp [hc] at ha

theorem replaceCRLF_eq_self : ∀ l : List Char, '\r' ∉ l → replaceCRLF l = l
  | [] => fun _ => rfl
  | [_] => fun _ => rfl
  | c :: d :: rest => fun h => by
    simp only [List.mem_cons, not_or] at h
    have hc : ¬c = '\r' := fun hh => h.1 hh.symm
    have ht : '\r' ∉ d :: rest := by
      simp only [List.mem_cons, not_or]
      exact ⟨h.2.1, h.2.2⟩
    simp [replaceCRLF, hc, replaceCRLF_eq_self (d :: rest) ht]

theorem replaceCR_eq_self (l : List Char) (h : '\r' ∉ l) : replaceCR l = l := by
  unfold replaceCR
  induction l with
  | nil => rfl
  | cons c t ih =>
    simp only [List.mem_cons, not_or] at h
    simp only [List.map_cons]
    rw [if_neg (fun hc => h.1 hc.symm), ih h.2]

theorem stripWrappingQuotes_subset (l : List Char) :
    stripWrappingQuotes l ⊆ l := by
  unfold stripWrappingQuotes
  split
  · exact fun a ha => List.drop_subset 1 l (List.dropLast_subset _ ha)
  · exact fun a ha => ha

theorem cr_not_mem_processCell (cell : List Char) : '\r' ∉ processCell cell :=
  fun h => cr_not_mem_replaceCR (replaceCRLF cell)
    (stripWrappingQuotes_subset (normalizeNewlines cell) h)

theorem parseCSVAux_doubleQuotes (s : List Char) :
    ∀ (field : List Char) (row : List (List Char)),
      parseCSVAux .inQuotedField field row (doubleQuotes s ++ ['"']) =
        [row ++ [field ++ s]] := by
  induction s with
  | nil => intro field row; simp [doubleQuotes, parseCSVAux]
  | cons c cs ih =>
    intro field row
    by_cases hc : c = '"'
    · subst hc
      simp [doubleQuotes, parseCSVAux, ih]
    · simp [doubleQuotes, hc, parseCSVAux, ih]

/-! Claim theorems. -/

/-- C2: for every parsed non-skipped row, `read_csv_column` produces the
empty string when the row has too few fields to contain the requested
column index, and otherwise the (normalized, quote-stripped) field at
that index. -/
theorem read_csv_column_row_selection (content : List Char) (col : Nat)
    (skip : Bool) (i : Nat) (row : List (List Char))
    (h : (selectedRows content skip)[i]? = some row) :
    (read_csv_column content col skip)[i]? =
      some (if col < row.length then processCell (row.getD col []) else []) := by
  simp [read_csv_column, List.getElem?_map, h, processRow]

/-- C2 witness: the spec's concrete scenario, second row. -/
theorem read_csv_column_row_selection_witness :
    (read_csv_column ("Title A,x\n\"Title B\n(line2)\",y".data) 0 false)[1]? =
      some ("Title B\n(line2)".data) := by
  rw [read_csv_column_row_selection ("Title A,x\n\"Title B\n(line2)\",y".data)
    0 false 1 ["Title B\n(line2)".data, "y".data] (by decide)]
  decide

/-- C3: the output length of `read_csv_column` equals the number of
non-skipped parsed rows; with `skip_header = true` it is the parsed row
count minus one, and a header-only file yields an empty result. -/
theorem read_csv_column_length (content : List Char) (col : Nat) :
    (read_csv_column content col false).length = (parsedRows content).length ∧
    (read_csv_column content col true).length =
      (parsedRows content).length - 1 ∧
    ((parsedRows content).length = 1 → read_csv_column content col true = []) := by
  refine ⟨by simp [read_csv_column, selectedRows],
    by simp [read_csv_column, selectedRows], ?_⟩
  intro h
  have hd : (parsedRows content).drop 1 = [] := by
    rw [List.drop_eq_nil_iff, h]
  simp [read_csv_column, selectedRows, hd]

/-- C3 witness: a file whose only row is the header yields an empty
result under `skip_header = true`. -/
theorem read_csv_column_length_witness :
    read_csv_column ("hdr".data) 0 true = [] :=
  (read_csv_column_length ("hdr".data) 0).2.2 (by decide)

/-- C5: no element returned by `read_csv_column` contains a carriage
return: both `"\r\n"` and lone `"\r"` have been turned into `"\n"`. -/
theorem read_csv_column_no_carriage_return (content : List Char) (col : Nat)
    (skip : Bool) (v : List Char) (hv : v ∈ read_csv_column content col skip) :
    '\r' ∉ v := by
  rcases List.mem_map.1 hv with ⟨row, _, rfl⟩
  unfold processRow
  split
  · exact cr_not_mem_processCell _
  · simp

/-- C5 witness: the field `a<CR>b` comes out as `a<LF>b`, with no
carriage return. -/
theorem read_csv_column_no_carriage_return_witness :
    '\r' ∉ ("a\nb".data) :=
  read_csv_column_no_carriage_return ("\"a\rb\"".data) 0 false ("a\nb".data)
    (by decide)

/-- C6: when the normalized field still starts and ends with a quote
character, exactly the first and last characters are stripped from the
output element; otherwise the stripping step leaves the normalized field
unchanged. -/
theorem quote_stripping_exact (content : List Char) (col : Nat) (skip : Bool)
    (i : Nat) (row : List (List Char))
    (h : (selectedRows content skip)[i]? = some row) (hc : col < row.length) :
    ((normalizeNewlines (row.getD col [])).head? = some '"' ∧
        (normalizeNewlines (row.getD col [])).getLast? = some '"' →
      (read_csv_column content col skip)[i]? =
        some (((normalizeNewlines (row.getD col [])).drop 1).dropLast)) ∧
    (¬((normalizeNewlines (row.getD col [])).head? = some '"' ∧
        (normalizeNewlines (row.getD col [])).getLast? = some '"') →
      (read_csv_column content col skip)[i]? =
        some (normalizeNewlines (row.getD col []))) := by
  have key : (read_csv_column content col skip)[i]? =
      some (processCell (row.getD col [])) := by
    simp only [read_csv_column, List.getElem?_map, h, Option.map_some']
    rw [processRow, if_pos hc]
  constructor
  · intro hq
    rw [key]
    simp only [processCell, stripWrappingQuotes]
    rw [if_pos hq]
  · intro hq
    rw [key]
    simp only [processCell, stripWrappingQuotes]
    rw [if_neg hq]

/-- C6 witness: the parsed field `"a"` (quotes unresolved by the CSV
layer) is stripped to `a`. -/
theorem quote_stripping_exact_witness :
    (read_csv_column ("\"\"\"a\"\"\"".data) 0 false)[0]? = some ['a'] := by
  rw [(quote_stripping_exact ("\"\"\"a\"\"\"".data) 0 false 0 ["\"a\"".data]
    (by decide) (by decide)).1 (by decide)]
  decide

/-- C8: a failing open/decode propagates unchanged out of
`read_csv_column`; no value list is produced. -/
theorem read_csv_column_file_propagates_error (e : String) (col : Nat)
    (skip : Bool) :
    read_csv_column_file (Except.error e) col skip = Except.error e := rfl

/-- C10: a field carrying a quote character at only one end is left
unchanged by the quote-stripping step. -/
theorem one_sided_quotes_unchanged (cell : List Char)
    (h : (cell.head? = some '"' ∧ cell.getLast? ≠ some '"') ∨
         (cell.head? ≠ some '"' ∧ cell.getLast? = some '"')) :
    stripWrappingQuotes cell = cell := by
  unfold stripWrappingQuotes
  rw [if_neg]
  rintro ⟨ha, hb⟩
  rcases h with ⟨-, h2⟩ | ⟨h1, -⟩
  · exact h2 hb
  · exact h1 ha

/-- C10 witness: a field with a leading quote only is unchanged. -/
theorem one_sided_quotes_unchanged_witness :
    stripWrappingQuotes ("\"a".data) = "\"a".data :=
  one_sided_quotes_unchanged ("\"a".data) (Or.inl (by decide))

/-- C1 counterexample: the field `"a,` `\n` `b"` contains an embedded
comma and newline, yet after writer-quoting and decoding the output is
not the original field — the defensive quote stripping removes its
outer quote characters. -/
theorem round_trip_fails_on_quote_wrapped_field :
    (',' ∈ ("\"a,\nb\"".data) ∧ '\n' ∈ ("\"a,\nb\"".data)) ∧
    read_csv_column (csvWriterQuote ("\"a,\nb\"".data)) 0 false ≠
      ["\"a,\nb\"".data] := by decide

/-- C1 amended: a field containing embedded commas and newlines, but no
carriage return and not both starting and ending with a quote
character, round-trips exactly through writer-quoting and
`read_csv_column`. -/
theorem round_trip_exact (s : List Char) (_hcomma : ',' ∈ s) (_hnl : '\n' ∈ s)
    (hcr : '\r' ∉ s)
    (hq : ¬(s.head? = some '"' ∧ s.getLast? = some '"')) :
    read_csv_column (csvWriterQuote s) 0 false = [s] := by
  have hbom : stripBOM (csvWriterQuote s) = csvWriterQuote s := by
    simp [stripBOM, csvWriterQuote]
  have hparse : parsedRows (csvWriterQuote s) = [[s]] := by
    rw [parsedRows, hbom, parseCSV, csvWriterQuote]
    simp [parseCSVAux, parseCSVAux_doubleQuotes]
  have hnorm : normalizeNewlines s = s := by
    rw [normalizeNewlines, replaceCRLF_eq_self s hcr, replaceCR_eq_self s hcr]
  simp [read_csv_column, selectedRows, hparse, processRow, processCell, hnorm,
    stripWrappingQuotes, hq]

/-- C1 witness: the field `a,` `\n` `b` round-trips exactly. -/
theorem round_trip_exact_witness :
    read_csv_column (csvWriterQuote ("a,\nb".data)) 0 false = ["a,\nb".data] :=
  round_trip_exact ("a,\nb".data) (by decide) (by decide) (by decide)
    (by decide)

/-- C7 counterexample: a file whose content itself begins with the
byte-order-mark character U+FEFF does not give the same output once a
further mark is prepended — only one leading mark is discarded, the
second is field data. -/
theorem bom_invariance_fails_on_bom_content :
    read_csv_column ['\uFEFF', '\uFEFF'] 0 false ≠
      read_csv_column ['\uFEFF'] 0 false := by decide

/-- C7 amended: for every file content that does not itself begin with
U+FEFF, prepending a byte-order mark leaves the output of
`read_csv_column` unchanged: the mark is discarded, never field data. -/
theorem bom_invariance_amended (content : List Char) (col : Nat) (skip : Bool)
    (h : content.head? ≠ some '\uFEFF') :
    read_csv_column ('\uFEFF' :: content) col skip =
      read_csv_column content col skip := by
  have h1 : stripBOM ('\uFEFF' :: content) = content := by simp [stripBOM]
  have h2 : stripBOM content = content := by
    cases content with
    | nil => rfl
    | cons c t =>
      have hc : ¬c = '\uFEFF' := by simpa using h
      simp [stripBOM, hc]
  simp [read_csv_column, selectedRows, parsedRows, parseCSV, h1, h2]

/-- C7 witness: for the one-row file `a`, a prepended mark changes
nothing. -/
theorem bom_invariance_amended_witness :
    read_csv_column ('\uFEFF' :: ("a".data)) 0 false =
      read_csv_column ("a".data) 0 false :=
  bom_invariance_amended ("a".data) 0 false (by decide)

/-- C4: with the guard checks passed, `update_from_csv` raises the
distinguished "CSV has no data rows." dialog exactly when the
extraction produced zero data rows, and in that case performs nothing
else; when rows exist the dialog never appears. -/
theorem update_from_csv_no_data_failure (host : ScribusHost)
    (content : List Char) (frame : String)
    (hd : host.haveDoc = true) (he : host.objectExists frame = true) :
    (read_csv_column content COLUMN_INDEX SKIP_HEADER = [] →
      (update_from_csv host (Except.ok content) frame).calls =
        [ScribusCall.messageBox "Error" "CSV has no data rows." 2]) ∧
    (read_csv_column content COLUMN_INDEX SKIP_HEADER ≠ [] →
      ScribusCall.messageBox "Error" "CSV has no data rows." 2 ∉
        (update_from_csv host (Except.ok content) frame).calls) := by
  constructor
  · intro hempty
    simp [update_from_csv, hd, he, read_csv_column_file, hempty]
  · intro hne
    have hne' : (read_csv_column content COLUMN_INDEX SKIP_HEADER).isEmpty
        = false := by
      simpa [List.isEmpty_iff] using hne
    have hcalls : (update_from_csv host (Except.ok content) frame).calls =
        [ScribusCall.selectObject frame, ScribusCall.deleteText frame,
          ScribusCall.insertText
            (String.mk (joinNewline (read_csv_column content COLUMN_INDEX SKIP_HEADER)))
            0 frame]
          ++ apply_formatting host frame
          ++ (if host.textOverflows frame then
                [ScribusCall.messageBox "Overflow Warning"
                  ("Text flows beyond linked frames starting at '"
                    ++ frame ++ "'.\n\n"
                    ++ "→ Add more linked frames or reduce font size/line spacing.")
                  1]
              else
                [ScribusCall.messageBox "Success"
                  (toString (read_csv_column content COLUMN_INDEX SKIP_HEADER).length
                    ++ " rows updated.") 0]) := by
      simp [update_from_csv, hd, he, read_csv_column_file, hne']
    rw [hcalls]
    intro hmem
    rcases List.mem_append.1 hmem with hmem' | h3
    · rcases List.mem_append.1 hmem' with h1 | h2
      · simp at h1
      · rw [apply_formatting] at h2
        split at h2
        · simp at h2
        · simp [LINE_MODE] at h2
    · split at h3 <;> simp at h3

/-- C4 host for the witness: a document is open and the frame exists. -/
def hostOk : ScribusHost :=
  { haveDoc := true, objectExists := fun _ => true,
    getTextLength := fun _ => 10, textOverflows := fun _ => false }

/-- C4 witness: an empty file yields exactly the no-data dialog. -/
theorem update_from_csv_no_data_failure_witness :
    (update_from_csv hostOk (Except.ok []) "TitleFrame").calls =
      [ScribusCall.messageBox "Error" "CSV has no data rows." 2] :=
  (update_from_csv_no_data_failure hostOk [] "TitleFrame" rfl rfl).1
    (by decide)

/-- C9: whenever a guard check fails (no document, frame missing, zero
data rows) or the CSV read raises, `update_from_csv` performs no call
that mutates the document. -/
theorem update_from_csv_no_mutation_on_failure (host : ScribusHost)
    (file : Except String (List Char)) (frame : String)
    (h : host.haveDoc = false ∨ host.objectExists frame = false ∨
         (∃ e, file = Except.error e) ∨
         (∃ content, file = Except.ok content ∧
            read_csv_column content COLUMN_INDEX SKIP_HEADER = [])) :
    ∀ c ∈ (update_from_csv host file frame).calls, c.isMutation = false := by
  intro c hc
  cases hhd : host.haveDoc with
  | false =>
    simp only [update_from_csv, hhd, if_true, List.mem_singleton] at hc
    subst hc; rfl
  | true =>
    cases hoe : host.objectExists frame with
    | false =>
      simp only [update_from_csv, hhd, hoe, Bool.true_eq_false, if_false,
        if_true, List.mem_singleton] at hc
      subst hc; rfl
    | true =>
      rcases h with h | h | ⟨e, rfl⟩ | ⟨cnt, rfl, hempty⟩
      · rw [hhd] at h; cases h
      · rw [hoe] at h; cases h
      · simp [update_from_csv, hhd, hoe, read_csv_column_file] at hc
      · simp only [update_from_csv, hhd, hoe, Bool.true_eq_false, if_false,
          read_csv_column_file, hempty, List.isEmpty_nil, if_true,
          List.mem_singleton] at hc
        subst hc; rfl

/-- C9 host for the witness: no document is open. -/
def hostNoDoc : ScribusHost :=
  { haveDoc := false, objectExists := fun _ => true,
    getTextLength := fun _ => 10, textOverflows := fun _ => false }

/-- C9 witness: with no document open, the one call in the trace (the
error dialog) does not mutate the document. -/
theorem update_from_csv_no_mutation_on_failure_witness :
    (ScribusCall.messageBox "Error" "No document open." 2).isMutation = false :=
  update_from_csv_no_mutation_on_failure hostNoDoc (Except.ok ['a'])
    "TitleFrame" (Or.inl rfl)
    (ScribusCall.messageBox "Error" "No document open." 2) (by decide)

end RefreshText
